import Mathlib

/-!
Shallow embedding of the CoreRag identity/session synchronization engine:
`src/contexts/AuthContext.jsx` together with the Supabase client helpers it
imports (`callRagBrain`, `checkEmailExists`).  JavaScript numbers are
modelled as `Rat`, payload values the code passes through untouched as
`JsVal`, JS objects returned to callers as ordered key/value lists, and the
JS falsy-driven `||` defaulting as explicit helper functions.  Network
effects are made observable by threading an oracle for each remote call and
returning the list of calls actually issued.
-/

namespace CoreRag

/-- JS primitive (number or string), for fields the source reads that may
hold either, such as `error.status` and `error.code` in `signUp`. -/
inductive JsPrim where
  | num (n : Int)
  | str (s : String)
deriving DecidableEq

/-- JS truthiness of a primitive: the number `0` and the empty string are
falsy, everything else is truthy. -/
def JsPrim.truthy : JsPrim → Bool
  | .num n => n != 0
  | .str s => s != ""

/-- JS value for payload fields the code passes through untouched
(`data.answer`, the elements of `data.sources`, `data.processing_time_ms`). -/
inductive JsVal where
  | vnull
  | vnum (q : Rat)
  | vstr (s : String)
  | varr (xs : List JsVal)

/-- JS `o || d` on an optional string: an absent (`undefined`/`null`) or
empty (falsy) string yields the default. -/
def jsStrOr (o : Option String) (d : String) : String :=
  match o with
  | none => d
  | some s => if s == "" then d else s

/-- JS `o || d` on an optional number: an absent or zero (falsy) number
yields the default. -/
def jsNumOr (o : Option Rat) (d : Rat) : Rat :=
  match o with
  | none => d
  | some x => if x == 0 then d else x

/-- JS `s.trim()`: strip leading and trailing whitespace.  Defined by
structural recursion on the character list so that it evaluates inside the
kernel. -/
def jsTrim (s : String) : String :=
  ⟨((s.data.dropWhile Char.isWhitespace).reverse.dropWhile
      Char.isWhitespace).reverse⟩

/-- JS `s.toLowerCase()` on the ASCII range used by the error matching. -/
def jsToLower (s : String) : String :=
  ⟨s.data.map Char.toLower⟩

/-- JS `s.includes(pat)`: `pat` occurs as a contiguous substring of `s`. -/
def strContainsAux (pat : List Char) : List Char → Bool
  | [] => pat.isEmpty
  | c :: rest => pat.isPrefixOf (c :: rest) || strContainsAux pat rest

/-- JS `s.includes(pat)` on strings. -/
def strContains (s pat : String) : Bool :=
  strContainsAux pat.data s.data

/-- A provider session as the engine observes it: the id of the
authenticated user (`session.user.id`) and the opaque access token. -/
structure Session where
  userId : String
  accessToken : String
deriving DecidableEq

/-! ### QueryDispatcher: `callRagBrain` (supabase client helper) -/

/-- The `options` argument of `callRagBrain`; an absent field models a JS
`undefined` entry. -/
structure RagOptions where
  matchThreshold : Option Rat := none
  matchCount : Option Rat := none

/-- The JSON `requestBody` that `callRagBrain` builds and posts to the
`rag-brain` Edge Function. -/
structure RagRequestBody where
  query : String
  vertical_id : String
  match_threshold : Rat
  match_count : Rat
deriving DecidableEq

/-- The parsed JSON body of the Edge Function response as `callRagBrain`
reads it. -/
structure RagResponseBody where
  success : Bool
  answer : JsVal
  sources : Option (List JsVal)
  processing_time_ms : JsVal
  error : Option String

/-- An HTTP response as `callRagBrain` observes it: `response.ok`,
`response.status` and the parsed JSON body. -/
structure HttpResponse where
  ok : Bool
  status : Nat
  body : RagResponseBody

/-- The `{data, error}` pair returned by `callRagBrain`; `data`, when
present, is the JS object literal modelled as its ordered key/value pairs. -/
structure RagResult where
  data : Option (List (String × JsVal))
  error : Option String

/-- Message of the error thrown when no session exists. -/
def msgUnauthenticated : String := "Utilisateur non authentifié"

/-- Message of the error thrown on an empty query. -/
def msgEmptyQuery : String := "La requête ne peut pas être vide"

/-- Message of the error thrown on an empty vertical id. -/
def msgVerticalRequired : String := "L\x27ID de la verticale est requis"

/-- Fallback message when the Edge Function reports failure with no text. -/
def msgEdgeUnknown : String := "Erreur inconnue de l\x27Edge Function"

/-- The `requestBody` object literal of `callRagBrain`: trimmed inputs and
the two tunables defaulted through JS `||`, so an explicitly supplied `0`
falls back to the default. -/
def ragRequestOf (query verticalId : String) (options : RagOptions) :
    RagRequestBody :=
  { query := jsTrim query
    vertical_id := jsTrim verticalId
    match_threshold := jsNumOr options.matchThreshold 0.5
    match_count := jsNumOr options.matchCount 5 }

/-- The success payload object literal of `callRagBrain`: keys `answer`,
`sources` (defaulted to `[]` when the service sent none) and
`processingTime`, in that literal order. -/
def ragSuccessData (b : RagResponseBody) : List (String × JsVal) :=
  [("answer", b.answer),
   ("sources", JsVal.varr (b.sources.getD [])),
   ("processingTime", b.processing_time_ms)]

/-- `callRagBrain(query, verticalId, options)`.  The current session (the
result of `supabase.auth.getSession()`) and the network are passed
explicitly; the second component of the result is the list of requests
actually sent to the Edge Function, so zero-network-call properties are
statable.  Thrown errors are the ones caught by the surrounding
`try`/`catch`, which returns them as `{data: null, error}`. -/
def callRagBrain (sess : Option Session)
    (fetchFn : RagRequestBody → HttpResponse)
    (query verticalId : String) (options : RagOptions) :
    RagResult × List RagRequestBody :=
  match sess with
  | none => ({ data := none, error := some msgUnauthenticated }, [])
  | some _ =>
    if query == "" || jsTrim query == "" then
      ({ data := none, error := some msgEmptyQuery }, [])
    else if verticalId == "" || jsTrim verticalId == "" then
      ({ data := none, error := some msgVerticalRequired }, [])
    else
      let requestBody := ragRequestOf query verticalId options
      let response := fetchFn requestBody
      let d := response.body
      if !response.ok then
        ({ data := none,
           error := some (jsStrOr d.error
             ("Erreur HTTP: " ++ toString response.status)) },
         [requestBody])
      else if !d.success then
        ({ data := none, error := some (jsStrOr d.error msgEdgeUnknown) },
         [requestBody])
      else
        ({ data := some (ragSuccessData d), error := none }, [requestBody])

/-- Trimming the empty string yields the empty string. -/
lemma trim_empty_eq : jsTrim "" = "" := by decide

/-- A string with a nonempty trim is nonempty. -/
lemma ne_empty_of_trim_ne (q : String) (h : jsTrim q ≠ "") : q ≠ "" :=
  fun he => h (by rw [he]; exact trim_empty_eq)

/-! ### AuthStateMachine and ProfileLoader (`AuthContext.jsx`) -/

/-- Application profile row as `loadUserProfile` reads it: its id and the
`org_id` it may carry (other columns are never inspected by the engine). -/
structure Profile where
  id : String
  org_id : Option String
deriving DecidableEq

/-- Organization row fetched by `loadUserProfile`. -/
structure Organization where
  id : String
deriving DecidableEq

/-- The state held by `AuthProvider`: the six published fields plus the two
mutable refs implementing the load-cycle guards. -/
structure AuthState where
  user : Option String
  session : Option Session
  profile : Option Profile
  organization : Option Organization
  loading : Bool
  error : Option String
  profileLoadedRef : Bool
  loadingProfileRef : Bool
deriving DecidableEq

/-- Result of one supabase `.single()` fetch: row data, or an error object
carrying `code` and `message`. -/
inductive FetchOutcome (α : Type) where
  | ok (data : α)
  | err (code : String) (message : String)

/-- Where `loadUserProfile` stands after running a synchronous segment:
finished, or suspended on the profiles fetch, or suspended on the
organizations fetch.  A suspension is also the network call itself, so
counting `awaitProfile` steps counts profile-store fetches. -/
inductive LoadStep where
  | done
  | awaitProfile (userId : String)
  | awaitOrg (orgId : String)
deriving DecidableEq

/-- Lines 27–38 of `loadUserProfile`: the guard check — a silent no-op when
`loadingProfileRef` is already set — and otherwise guard acquisition
followed by suspension on the profiles fetch. -/
def loadUserProfileStart (userId : String) (s : AuthState) :
    AuthState × LoadStep :=
  if s.loadingProfileRef then (s, .done)
  else ({ s with loadingProfileRef := true }, .awaitProfile userId)

/-- Lines 40–70 of `loadUserProfile`, resumed with the profiles fetch
outcome: the not-found (`PGRST116`) branch, the throw-to-catch branch
(`setError`), and the success branch, which applies the profile and then
either suspends on the organizations fetch (when `org_id` is truthy) or
completes.  On every completing path the `finally` releases the guard. -/
def loadUserProfileResumeProfile (r : FetchOutcome Profile)
    (s : AuthState) : AuthState × LoadStep :=
  match r with
  | .err code message =>
    if code == "PGRST116" then
      ({ s with profile := none, organization := none,
                profileLoadedRef := true, loadingProfileRef := false },
       .done)
    else
      ({ s with error := some message, profileLoadedRef := true,
                loadingProfileRef := false }, .done)
  | .ok profileData =>
    let s1 := { s with profile := some profileData }
    match profileData.org_id with
    | some orgId =>
      if orgId == "" then
        ({ s1 with profileLoadedRef := true, loadingProfileRef := false },
         .done)
      else (s1, .awaitOrg orgId)
    | none =>
      ({ s1 with profileLoadedRef := true, loadingProfileRef := false },
       .done)

/-- Lines 53–70 of `loadUserProfile`, resumed with the organizations fetch
outcome: the organization is applied only when the fetch reported no error;
then `profileLoadedRef` is raised and the `finally` releases the guard. -/
def loadUserProfileResumeOrg (r : FetchOutcome Organization)
    (s : AuthState) : AuthState × LoadStep :=
  match r with
  | .ok orgData =>
    ({ s with organization := some orgData, profileLoadedRef := true,
              loadingProfileRef := false }, .done)
  | .err _ _ =>
    ({ s with profileLoadedRef := true, loadingProfileRef := false }, .done)

/-- Provider notification kinds distinguished by the handler. -/
inductive AuthEvent where
  | SIGNED_IN
  | SIGNED_OUT
  | OTHER
deriving DecidableEq

/-- The `onAuthStateChange` handler (lines 97–124).  It stores the new
session and user unconditionally, then branches on the event; the second
component is the profile load the `SIGNED_IN` branch schedules via its
`setTimeout` settling delay, if any. -/
def onAuthStateChange (event : AuthEvent) (newSession : Option Session)
    (s : AuthState) : AuthState × Option String :=
  let s1 := { s with session := newSession,
                     user := newSession.map Session.userId }
  match event, newSession with
  | .SIGNED_IN, some sess =>
    ({ s1 with profileLoadedRef := false, loadingProfileRef := false },
     some sess.userId)
  | .SIGNED_OUT, _ =>
    ({ s1 with profile := none, organization := none,
               profileLoadedRef := false, loadingProfileRef := false,
               loading := false }, none)
  | _, _ => ({ s1 with loading := false }, none)

/-! ### SignupGuard: `signUp` (`AuthContext.jsx` lines 132–219) -/

/-- Provider error object returned by `supabase.auth.signUp`:
`message`, `status` and `code` fields, each possibly absent. -/
structure ProviderError where
  message : Option String
  status : Option JsPrim
  code : Option JsPrim
deriving DecidableEq

/-- Outcome of the provider create-account call: a `{data, error}` pair
with data, one with an error object, or a rejected promise carrying a
message. -/
inductive ProviderOutcome where
  | ok (data : String)
  | err (e : ProviderError)
  | throws (message : Option String)

/-- Outcome of the email pre-check call: a returned boolean, or a
rejection (caught and ignored by `signUp`). -/
inductive CheckOutcome where
  | returns (b : Bool)
  | throws

/-- Environment of one `signUp` call: the pre-check capability outcome when
the capability is present, and the provider outcome.  The password and
metadata arguments are forwarded opaquely and never inspected, so they are
omitted from the model. -/
structure SignupEnv where
  check : Option CheckOutcome
  provider : ProviderOutcome

/-- The network calls `signUp` can issue, in issue order. -/
inductive NetCall where
  | checkEmail (email : String)
  | createAccount (email : String)
deriving DecidableEq

/-- JS `a || b || ""` over the two optional status fields of a provider
error: the first truthy primitive, else the empty string. -/
def firstTruthy (a b : Option JsPrim) : JsPrim :=
  match a with
  | some p =>
    if p.truthy then p
    else match b with
      | some q => if q.truthy then q else .str ""
      | none => .str ""
  | none =>
    match b with
    | some q => if q.truthy then q else .str ""
    | none => .str ""

/-- Lines 172–187: the `isEmailExists` classification of a provider
error. -/
def isEmailExistsError (e : ProviderError) : Bool :=
  let errorMessage := e.message.getD ""
  let errorStatus := firstTruthy e.status e.code
  let errorLower := jsToLower errorMessage
  errorStatus == JsPrim.num 422 ||
  errorStatus == JsPrim.num 400 ||
  strContains errorLower "already" ||
  strContains errorLower "exists" ||
  strContains errorLower "registered" ||
  strContains errorLower "duplicate" ||
  errorMessage == "User already registered" ||
  errorMessage == "Email already registered" ||
  errorMessage == "A user with this email already exists"

/-- The distinct error object shapes `signUp` returns: the guard rejection,
the pre-check `EMAIL_EXISTS` short-circuit, the classified `EMAIL_EXISTS`
carrying the original provider error, the unclassified pass-through of the
provider error, and the caught-exception `UNKNOWN_ERROR`. -/
inductive SignUpError where
  | inProgress
  | emailExistsPre
  | emailExistsClassified (original : ProviderError)
  | passthrough (e : ProviderError)
  | unknown (message : String)

/-- Observable outcome of one `signUp` call: the returned `{data, error}`
pair, the value of `signingUpRef` after the call, and the network calls
issued. -/
structure SignUpOutcome where
  data : Option String
  error : Option SignUpError
  signingUpAfter : Bool
  calls : List NetCall

/-- Message of the guard-rejection error object. -/
def msgSignupInProgress : String := "Une inscription est déjà en cours."

/-- Default message of the `UNKNOWN_ERROR` object. -/
def msgUnknownDefault : String := "Une erreur inattendue s\x27est produite."

/-- Lines 164–218 of `signUp`: the provider create-account call and the
interpretation of its outcome (`calls0` is the list of network calls
already issued by the pre-check).  The `finally` clears `signingUpRef` on
every path. -/
def signUpProvider (env : SignupEnv) (email : String)
    (calls0 : List NetCall) : SignUpOutcome :=
  match env.provider with
  | .ok d =>
    { data := some d, error := none, signingUpAfter := false,
      calls := calls0 ++ [.createAccount email] }
  | .err e =>
    if isEmailExistsError e then
      { data := none, error := some (.emailExistsClassified e),
        signingUpAfter := false, calls := calls0 ++ [.createAccount email] }
    else
      { data := none, error := some (.passthrough e),
        signingUpAfter := false, calls := calls0 ++ [.createAccount email] }
  | .throws m =>
    { data := none, error := some (.unknown (jsStrOr m msgUnknownDefault)),
      signingUpAfter := false, calls := calls0 ++ [.createAccount email] }

/-- `signUp(email, password, metadata)` (lines 132–219): the guard check,
then the email pre-check (short-circuiting on a strict `true`, ignoring its
own failures), then the provider call. -/
def signUp (signingUp : Bool) (env : SignupEnv) (email : String) :
    SignUpOutcome :=
  if signingUp then
    { data := none, error := some .inProgress, signingUpAfter := signingUp,
      calls := [] }
  else
    match env.check with
    | some (.returns true) =>
      { data := none, error := some .emailExistsPre,
        signingUpAfter := false, calls := [.checkEmail email] }
    | some _ => signUpProvider env email [.checkEmail email]
    | none => signUpProvider env email []

/-- Empty options object (`options = {}`). -/
def noOptions : RagOptions := {}

/-- A constant network oracle answering every request with a bare success. -/
def constFetch : RagRequestBody → HttpResponse :=
  fun _ => { ok := true, status := 200,
             body := { success := true, answer := .vnull, sources := none,
                       processing_time_ms := .vnull, error := none } }

/-- The mocked service response of the C3 scenario:
`{success:true, answer:"Y", sources:[], processing_time_ms:42}`. -/
def c3Response : HttpResponse :=
  { ok := true, status := 200,
    body := { success := true, answer := .vstr "Y", sources := some [],
              processing_time_ms := .vnum 42, error := none } }

/-- Network oracle returning `c3Response` to every request. -/
def c3Env : RagRequestBody → HttpResponse := fun _ => c3Response

/-- Modelled from the spec words (for comparison only): the normalized
record the spec describes, whose third key is `processingTimeMs`. -/
def specNormalizedRecord (answer : JsVal) (sources : List JsVal)
    (pt : JsVal) : List (String × JsVal) :=
  [("answer", answer), ("sources", JsVal.varr sources),
   ("processingTimeMs", pt)]

/-- C8: dispatch validation.  With no live session `callRagBrain` returns
the unauthenticated error (the `UNAUTHENTICATED` class); with a query that
is blank after trimming it returns the empty-query validation error; with a
nonblank query but a blank vertical id it returns the vertical-id
validation error; in every such case the list of issued network requests is
empty. -/
theorem C8_dispatch_validation (s : Session)
    (fetchFn : RagRequestBody → HttpResponse)
    (query verticalId : String) (options : RagOptions) :
    callRagBrain none fetchFn query verticalId options
      = ({ data := none, error := some msgUnauthenticated }, []) ∧
    (jsTrim query = "" →
      callRagBrain (some s) fetchFn query verticalId options
        = ({ data := none, error := some msgEmptyQuery }, [])) ∧
    (jsTrim query ≠ "" → jsTrim verticalId = "" →
      callRagBrain (some s) fetchFn query verticalId options
        = ({ data := none, error := some msgVerticalRequired }, [])) := by
  refine ⟨rfl, fun h => ?_, fun h1 h2 => ?_⟩
  · simp [callRagBrain, h]
  · have hq0 := ne_empty_of_trim_ne query h1
    simp [callRagBrain, hq0, h1, h2]

/-- Witness for C8 at the concrete inputs of the spec scenario:
`dispatch("", "audit")` and `dispatch("What is X?", " ")`. -/
theorem C8_dispatch_validation_witness :
    callRagBrain (some ⟨"u1", "tok"⟩) constFetch "" "audit" noOptions
      = ({ data := none, error := some msgEmptyQuery }, []) ∧
    callRagBrain (some ⟨"u1", "tok"⟩) constFetch "What is X?" " " noOptions
      = ({ data := none, error := some msgVerticalRequired }, []) :=
  ⟨(C8_dispatch_validation ⟨"u1", "tok"⟩ constFetch "" "audit"
      noOptions).2.1 (by decide),
   (C8_dispatch_validation ⟨"u1", "tok"⟩ constFetch "What is X?" " "
      noOptions).2.2 (by decide) (by decide)⟩

/-- C3 (amended): on a successful dispatch where the service responds with
`success = true`, the result is the normalized record with keys `answer`,
`sources` (the empty array when the service returns none, order preserved
as returned) and `processingTime` — the key is `processingTime`, not
`processingTimeMs` — with no error, and exactly the one built request was
sent. -/
theorem C3_success_normalized (s : Session)
    (fetchFn : RagRequestBody → HttpResponse)
    (query verticalId : String) (options : RagOptions)
    (hq : jsTrim query ≠ "") (hv : jsTrim verticalId ≠ "")
    (hok : (fetchFn (ragRequestOf query verticalId options)).ok = true)
    (hs : (fetchFn (ragRequestOf query verticalId options)).body.success
      = true) :
    callRagBrain (some s) fetchFn query verticalId options
      = ({ data := some (ragSuccessData
             (fetchFn (ragRequestOf query verticalId options)).body),
           error := none },
         [ragRequestOf query verticalId options]) := by
  have hq0 := ne_empty_of_trim_ne query hq
  have hv0 := ne_empty_of_trim_ne verticalId hv
  simp [callRagBrain, hq0, hq, hv0, hv, hok, hs]

/-- Witness for C3 at the spec scenario: `dispatch("What is X?", "audit")`
against the mocked `{success:true, answer:"Y", sources:[],
processing_time_ms:42}` service. -/
theorem C3_success_normalized_witness :
    callRagBrain (some ⟨"u1", "tok"⟩) c3Env "What is X?" "audit" noOptions
      = ({ data := some (ragSuccessData c3Response.body), error := none },
         [ragRequestOf "What is X?" "audit" noOptions]) :=
  C3_success_normalized ⟨"u1", "tok"⟩ c3Env "What is X?" "audit" noOptions
    (by decide) (by decide) rfl rfl

/-- Counterexample for C3 as stated: at the spec scenario the returned
record is not `{answer:"Y", sources:[], processingTimeMs:42}` — the code
names the third key `processingTime`, so no `processingTimeMs` key exists. -/
theorem C3_counterexample :
    (callRagBrain (some ⟨"u1", "tok"⟩) c3Env "What is X?" "audit"
        noOptions).1.data
      ≠ some (specNormalizedRecord (JsVal.vstr "Y") [] (JsVal.vnum 42)) := by
  intro h
  have h2 : ((callRagBrain (some ⟨"u1", "tok"⟩) c3Env "What is X?" "audit"
        noOptions).1.data.map (fun l => l.map Prod.fst))
      = some ["answer", "sources", "processingTime"] := rfl
  rw [h] at h2
  exact absurd h2 (by decide)

/-- C10: request-body defaulting uses JS falsiness, not absence — an
explicitly supplied `matchThreshold = 0` is replaced by the default `0.5`
and an explicitly supplied `matchCount = 0` by the default `5`; and on a
dispatch passing validation the request actually sent is exactly this
body. -/
theorem C10_falsy_defaults (s : Session)
    (fetchFn : RagRequestBody → HttpResponse)
    (query verticalId : String) (options : RagOptions) :
    (options.matchThreshold = some 0 →
      (ragRequestOf query verticalId options).match_threshold = 0.5) ∧
    (options.matchCount = some 0 →
      (ragRequestOf query verticalId options).match_count = 5) ∧
    (jsTrim query ≠ "" → jsTrim verticalId ≠ "" →
      (callRagBrain (some s) fetchFn query verticalId options).2
        = [ragRequestOf query verticalId options]) := by
  refine ⟨fun h => ?_, fun h => ?_, fun h1 h2 => ?_⟩
  · simp [ragRequestOf, jsNumOr, h]
  · simp [ragRequestOf, jsNumOr, h]
  · have hq0 := ne_empty_of_trim_ne query h1
    have hv0 := ne_empty_of_trim_ne verticalId h2
    cases hok : (fetchFn (ragRequestOf query verticalId options)).ok <;>
      cases hsu : (fetchFn
        (ragRequestOf query verticalId options)).body.success <;>
      simp [callRagBrain, hq0, h1, hv0, h2, hok, hsu]

/-- Witness for C10: options explicitly carrying zero for both tunables
yield a request with `match_threshold = 0.5` and `match_count = 5`. -/
theorem C10_falsy_defaults_witness :
    (ragRequestOf "q" "v" ⟨some 0, some 0⟩).match_threshold = 0.5 ∧
    (ragRequestOf "q" "v" ⟨some 0, some 0⟩).match_count = 5 ∧
    (callRagBrain (some ⟨"u1", "tok"⟩) constFetch "q" "v"
        ⟨some 0, some 0⟩).2 = [ragRequestOf "q" "v" ⟨some 0, some 0⟩] :=
  ⟨(C10_falsy_defaults ⟨"u1", "tok"⟩ constFetch "q" "v"
      ⟨some 0, some 0⟩).1 rfl,
   (C10_falsy_defaults ⟨"u1", "tok"⟩ constFetch "q" "v"
      ⟨some 0, some 0⟩).2.1 rfl,
   (C10_falsy_defaults ⟨"u1", "tok"⟩ constFetch "q" "v"
      ⟨some 0, some 0⟩).2.2 (by decide) (by decide)⟩

/-- A quiescent unauthenticated state with no guard held. -/
def stateIdle : AuthState :=
  { user := none, session := none, profile := none, organization := none,
    loading := false, error := none, profileLoadedRef := false,
    loadingProfileRef := false }

/-- A state in which a profile load is marked in flight. -/
def stateBusy : AuthState := { stateIdle with loadingProfileRef := true }

/-- An authenticated state with no guard held, as after session restore. -/
def signedInFree : AuthState :=
  { user := some "u1", session := some ⟨"u1", "tok"⟩, profile := none,
    organization := none, loading := false, error := none,
    profileLoadedRef := true, loadingProfileRef := false }

/-- The profile row delivered by the late fetch of the C1 scenario. -/
def pLate : Profile := { id := "u1", org_id := none }

/-- Helper: any completion of `loadUserProfileResumeProfile` with fetched
row `p` publishes `profile = some p`. -/
lemma resumeProfile_ok_profile (p : Profile) (s : AuthState) :
    (loadUserProfileResumeProfile (FetchOutcome.ok p) s).1.profile
      = some p := by
  rcases p with ⟨pid, oid⟩
  cases oid with
  | none => rfl
  | some o =>
    simp only [loadUserProfileResumeProfile]
    split <;> rfl

/-- C1 (amended): `SIGNED_OUT` does yield, within one processing step, a
state with `user = session = profile = organization = none` and
`loading = false`; but `loadUserProfile` contains no is-this-still-the-
active-session check after its suspension points, so the completion of an
in-flight load re-applies its late result: resuming the load after the
sign-out publishes the fetched profile again (and the fetched organization
when the organization fetch succeeds). -/
theorem C1_signed_out_late_load (s : AuthState) (p : Profile)
    (o : Organization) :
    ((onAuthStateChange AuthEvent.SIGNED_OUT none s).1.user = none ∧
     (onAuthStateChange AuthEvent.SIGNED_OUT none s).1.session = none ∧
     (onAuthStateChange AuthEvent.SIGNED_OUT none s).1.profile = none ∧
     (onAuthStateChange AuthEvent.SIGNED_OUT none s).1.organization
       = none ∧
     (onAuthStateChange AuthEvent.SIGNED_OUT none s).1.loading = false) ∧
    (loadUserProfileResumeProfile (FetchOutcome.ok p)
        (onAuthStateChange AuthEvent.SIGNED_OUT none s).1).1.profile
      = some p ∧
    (loadUserProfileResumeOrg (FetchOutcome.ok o)
        (onAuthStateChange AuthEvent.SIGNED_OUT none s).1).1.organization
      = some o := by
  exact ⟨⟨rfl, rfl, rfl, rfl, rfl⟩, resumeProfile_ok_profile p _, rfl⟩

/-- Counterexample for C1 as stated: a load for `"u1"` is genuinely in
flight (it suspended on the profiles fetch), a `SIGNED_OUT` is processed
leaving `profile = none`, and the late completion of that same load then
re-introduces a non-null profile — the late result is applied, not
discarded. -/
theorem C1_counterexample :
    (loadUserProfileStart "u1" signedInFree).2
      = LoadStep.awaitProfile "u1" ∧
    (onAuthStateChange AuthEvent.SIGNED_OUT none
        (loadUserProfileStart "u1" signedInFree).1).1.profile = none ∧
    (loadUserProfileResumeProfile (FetchOutcome.ok pLate)
        (onAuthStateChange AuthEvent.SIGNED_OUT none
          (loadUserProfileStart "u1" signedInFree).1).1).2
      = LoadStep.done ∧
    (loadUserProfileResumeProfile (FetchOutcome.ok pLate)
        (onAuthStateChange AuthEvent.SIGNED_OUT none
          (loadUserProfileStart "u1" signedInFree).1).1).1.profile
      = some pLate :=
  ⟨rfl, rfl, rfl, rfl⟩

/-- The earlier profile of the C2 scenario, member of organization `oA`. -/
def pA : Profile := { id := "u1", org_id := some "oA" }

/-- The loaded organization of the C2 scenario. -/
def orgA : Organization := { id := "oA" }

/-- The replacement profile of the C2 scenario, carrying no organization
reference. -/
def pB : Profile := { id := "u1", org_id := none }

/-- A published state holding profile `pA` and its organization `orgA`. -/
def stateWithOrgA : AuthState :=
  { user := some "u1", session := some ⟨"u1", "tok"⟩, profile := some pA,
    organization := some orgA, loading := false, error := none,
    profileLoadedRef := true, loadingProfileRef := false }

/-- C2 (amended): the organization field is updated only by a successful
organization fetch (set to the fetched row) or by the profile not-found
outcome (cleared); when the loaded profile carries no organization
reference, or the organization fetch fails, the previous Organization is
left unchanged, so a stale Organization from an earlier profile can remain
in the published state. -/
theorem C2_org_update (s : AuthState) (p : Profile) (o : Organization)
    (c m : String) :
    (loadUserProfileResumeProfile (FetchOutcome.err "PGRST116" m)
        s).1.organization = none ∧
    (p.org_id = none →
      (loadUserProfileResumeProfile (FetchOutcome.ok p) s).1.organization
        = s.organization) ∧
    (loadUserProfileResumeOrg (FetchOutcome.err c m) s).1.organization
      = s.organization ∧
    (loadUserProfileResumeOrg (FetchOutcome.ok o) s).1.organization
      = some o := by
  refine ⟨rfl, fun h => ?_, rfl, rfl⟩
  rcases p with ⟨pid, oid⟩
  cases h
  rfl

/-- Witness for C2 (amended) at the concrete C2 scenario values. -/
theorem C2_org_update_witness :
    (loadUserProfileResumeProfile (FetchOutcome.ok pB)
        stateWithOrgA).1.organization = stateWithOrgA.organization :=
  (C2_org_update stateWithOrgA pB orgA "boom" "msg").2.1 rfl

/-- Counterexample for C2 as stated: reloading over a state that holds
`orgA` with a fetched profile `pB` that has no organization reference
completes, publishes `profile = pB`, yet leaves the stale `orgA` in the
state — the published Organization does not match the current profile's
organization id. -/
theorem C2_counterexample :
    (loadUserProfileResumeProfile (FetchOutcome.ok pB)
        (loadUserProfileStart "u1" stateWithOrgA).1).2 = LoadStep.done ∧
    (loadUserProfileResumeProfile (FetchOutcome.ok pB)
        (loadUserProfileStart "u1" stateWithOrgA).1).1.profile = some pB ∧
    pB.org_id = none ∧
    (loadUserProfileResumeProfile (FetchOutcome.ok pB)
        (loadUserProfileStart "u1" stateWithOrgA).1).1.organization
      = some orgA :=
  ⟨rfl, rfl, rfl, rfl⟩

/-- C4: ProfileLoader mutual exclusion and release — a call while the
guard is set is a silent no-op issuing no fetch; from a free state a call
acquires the guard and suspends on exactly one profiles fetch, and a second
call on the resulting state is a no-op (so two concurrent calls cause
exactly one fetch); and every completing segment of the loader releases the
guard. -/
theorem C4_profile_guard (s : AuthState) (u : String)
    (r : FetchOutcome Profile) (ro : FetchOutcome Organization) :
    (s.loadingProfileRef = true →
      loadUserProfileStart u s = (s, LoadStep.done)) ∧
    (s.loadingProfileRef = false →
      (loadUserProfileStart u s).2 = LoadStep.awaitProfile u ∧
      loadUserProfileStart u (loadUserProfileStart u s).1
        = ((loadUserProfileStart u s).1, LoadStep.done)) ∧
    ((loadUserProfileResumeProfile r s).2 = LoadStep.done →
      (loadUserProfileResumeProfile r s).1.loadingProfileRef = false) ∧
    (loadUserProfileResumeOrg ro s).1.loadingProfileRef = false := by
  refine ⟨fun h => ?_, fun h => ⟨?_, ?_⟩, ?_, ?_⟩
  · simp [loadUserProfileStart, h]
  · simp [loadUserProfileStart, h]
  · simp [loadUserProfileStart, h]
  · cases r with
    | err code message =>
      simp only [loadUserProfileResumeProfile]
      split <;> exact fun _ => rfl
    | ok p =>
      rcases p with ⟨pid, oid⟩
      cases oid with
      | none => exact fun _ => rfl
      | some oI =>
        simp only [loadUserProfileResumeProfile]
        split
        · exact fun _ => rfl
        · exact fun hc => absurd hc (by simp)
  · cases ro <;> rfl

/-- Witness for C4 at concrete states: a busy-state call is a no-op; an
idle-state call suspends on the fetch and a second call is a no-op; a
failing completion releases the guard. -/
theorem C4_profile_guard_witness :
    loadUserProfileStart "u1" stateBusy = (stateBusy, LoadStep.done) ∧
    (loadUserProfileStart "u1" stateIdle).2 = LoadStep.awaitProfile "u1" ∧
    loadUserProfileStart "u1" (loadUserProfileStart "u1" stateIdle).1
      = ((loadUserProfileStart "u1" stateIdle).1, LoadStep.done) ∧
    (loadUserProfileResumeProfile (FetchOutcome.err "500" "boom")
        stateBusy).1.loadingProfileRef = false :=
  ⟨(C4_profile_guard stateBusy "u1" (FetchOutcome.err "500" "boom")
      (FetchOutcome.err "500" "boom")).1 rfl,
   ((C4_profile_guard stateIdle "u1" (FetchOutcome.err "500" "boom")
      (FetchOutcome.err "500" "boom")).2.1 rfl).1,
   ((C4_profile_guard stateIdle "u1" (FetchOutcome.err "500" "boom")
      (FetchOutcome.err "500" "boom")).2.1 rfl).2,
   (C4_profile_guard stateBusy "u1" (FetchOutcome.err "500" "boom")
      (FetchOutcome.err "500" "boom")).2.2.1 rfl⟩

/-- C9: the not-found outcome (code `PGRST116`) sets profile and
organization to absent, raises `profileLoadedRef`, releases the guard and
completes, and records no error: the error field is left exactly as it
was. -/
theorem C9_not_found (s : AuthState) (message : String) :
    loadUserProfileResumeProfile (FetchOutcome.err "PGRST116" message) s
      = ({ s with profile := none, organization := none,
                  profileLoadedRef := true, loadingProfileRef := false },
         LoadStep.done) ∧
    (loadUserProfileResumeProfile (FetchOutcome.err "PGRST116" message)
        s).1.error = s.error :=
  ⟨rfl, rfl⟩

/-- Helper: every path of the provider phase of `signUp` clears the
in-flight flag. -/
lemma signUpProvider_after (env : SignupEnv) (email : String)
    (calls0 : List NetCall) :
    (signUpProvider env email calls0).signingUpAfter = false := by
  rcases env with ⟨c, pr⟩
  cases pr with
  | ok d => rfl
  | err e =>
    simp only [signUpProvider]
    split <;> rfl
  | throws m => rfl

/-- C5: SignupGuard mutual exclusion and release — a call while a signup
is in flight returns the in-progress guard rejection immediately with no
network call of either kind, leaving the flag to its owner; and a call
that takes the flag clears it on every exit path (success, classified
error, pass-through error, unknown error). -/
theorem C5_signup_guard (env : SignupEnv) (email : String) :
    signUp true env email
      = { data := none, error := some SignUpError.inProgress,
          signingUpAfter := true, calls := [] } ∧
    (signUp false env email).signingUpAfter = false := by
  constructor
  · rfl
  · rcases env with ⟨c, pr⟩
    cases c with
    | none => exact signUpProvider_after ⟨none, pr⟩ email []
    | some co =>
      cases co with
      | returns b =>
        cases b with
        | true => rfl
        | false =>
          exact signUpProvider_after ⟨some (.returns false), pr⟩ email
            [.checkEmail email]
      | throws =>
        exact signUpProvider_after ⟨some .throws, pr⟩ email
          [.checkEmail email]

/-- Helper: the provider phase issues exactly one create-account call
after whatever the pre-check issued, on every provider outcome. -/
lemma signUpProvider_calls (env : SignupEnv) (email : String)
    (calls0 : List NetCall) :
    (signUpProvider env email calls0).calls
      = calls0 ++ [NetCall.createAccount email] := by
  rcases env with ⟨c, pr⟩
  cases pr with
  | ok d => rfl
  | err e =>
    simp only [signUpProvider]
    split <;> rfl
  | throws m => rfl

/-- C7: the email pre-check — a strict `true` short-circuits with the
`EMAIL_EXISTS` error and the provider create-account operation is never
called; a pre-check that throws, and an absent capability, both proceed to
the provider call anyway. -/
theorem C7_precheck (env : SignupEnv) (email : String) :
    (env.check = some (CheckOutcome.returns true) →
      signUp false env email
        = { data := none, error := some SignUpError.emailExistsPre,
            signingUpAfter := false, calls := [NetCall.checkEmail email] }) ∧
    (env.check = some CheckOutcome.throws →
      (signUp false env email).calls
        = [NetCall.checkEmail email, NetCall.createAccount email]) ∧
    (env.check = none →
      (signUp false env email).calls = [NetCall.createAccount email]) := by
  rcases env with ⟨c, pr⟩
  refine ⟨fun h => ?_, fun h => ?_, fun h => ?_⟩
  · cases h
    rfl
  · cases h
    exact signUpProvider_calls ⟨some CheckOutcome.throws, pr⟩ email
      [NetCall.checkEmail email]
  · cases h
    exact signUpProvider_calls ⟨none, pr⟩ email []

/-- Witness for C7 at the spec scenario inputs. -/
theorem C7_precheck_witness :
    signUp false ⟨some (CheckOutcome.returns true), ProviderOutcome.ok "acct"⟩
        "taken@example.com"
      = { data := none, error := some SignUpError.emailExistsPre,
          signingUpAfter := false,
          calls := [NetCall.checkEmail "taken@example.com"] } ∧
    (signUp false ⟨some CheckOutcome.throws, ProviderOutcome.ok "acct"⟩
        "a@b.c").calls
      = [NetCall.checkEmail "a@b.c", NetCall.createAccount "a@b.c"] ∧
    (signUp false ⟨none, ProviderOutcome.ok "acct"⟩ "a@b.c").calls
      = [NetCall.createAccount "a@b.c"] :=
  ⟨(C7_precheck ⟨some (CheckOutcome.returns true), ProviderOutcome.ok "acct"⟩
      "taken@example.com").1 rfl,
   (C7_precheck ⟨some CheckOutcome.throws, ProviderOutcome.ok "acct"⟩
      "a@b.c").2.1 rfl,
   (C7_precheck ⟨none, ProviderOutcome.ok "acct"⟩ "a@b.c").2.2 rfl⟩

/-- Modelled from the spec words (for comparison only): the claimed
classification precedence — status 422/400 first, then the case-insensitive
substring match, then the exact known phrasings, else unclassified. -/
def specClassifyEmailExists (e : ProviderError) : Bool :=
  if firstTruthy e.status e.code == JsPrim.num 422 ||
     firstTruthy e.status e.code == JsPrim.num 400 then true
  else if strContains (jsToLower (e.message.getD "")) "already" ||
          strContains (jsToLower (e.message.getD "")) "exists" ||
          strContains (jsToLower (e.message.getD "")) "registered" ||
          strContains (jsToLower (e.message.getD "")) "duplicate" then true
  else if e.message.getD "" == "User already registered" ||
          e.message.getD "" == "Email already registered" ||
          e.message.getD "" == "A user with this email already exists"
    then true
  else false

/-- C6: the provider-error classification of `signUp` agrees exactly with
the spec precedence cascade; on the provider-error path (pre-check absent)
the result is the classified `EMAIL_EXISTS` error when the classification
fires and the original error passed through otherwise; and a status of 422
classifies as `EMAIL_EXISTS` regardless of the message text. -/
theorem C6_classification (env : SignupEnv) (email : String)
    (e : ProviderError) :
    isEmailExistsError e = specClassifyEmailExists e ∧
    (env.check = none → env.provider = ProviderOutcome.err e →
      (signUp false env email).error
        = some (if isEmailExistsError e
            then SignUpError.emailExistsClassified e
            else SignUpError.passthrough e)) ∧
    (e.status = some (JsPrim.num 422) → isEmailExistsError e = true) := by
  refine ⟨?_, fun h1 h2 => ?_, fun h => ?_⟩
  · have key : ∀ a1 a2 b1 b2 b3 b4 c1 c2 c3 : Bool,
        (a1 || a2 || b1 || b2 || b3 || b4 || c1 || c2 || c3)
          = (if a1 || a2 then true
             else if b1 || b2 || b3 || b4 then true
             else if c1 || c2 || c3 then true else false) := by decide
    simp only [isEmailExistsError, specClassifyEmailExists]
    exact key _ _ _ _ _ _ _ _ _
  · rcases env with ⟨c, pr⟩
    cases h1
    cases h2
    by_cases hc : isEmailExistsError e = true
    · simp [signUp, signUpProvider, hc]
    · simp [signUp, signUpProvider, hc]
  · simp [isEmailExistsError, firstTruthy, h, JsPrim.truthy]

/-- The provider error of the C6 scenario: status 422 with an unrelated
message text. -/
def e422 : ProviderError :=
  { message := some "totally unrelated text",
    status := some (JsPrim.num 422), code := none }

/-- Witness for C6 at the 422-with-unrelated-text provider error. -/
theorem C6_classification_witness :
    isEmailExistsError e422 = specClassifyEmailExists e422 ∧
    (signUp false ⟨none, ProviderOutcome.err e422⟩ "a@b.c").error
      = some (if isEmailExistsError e422
          then SignUpError.emailExistsClassified e422
          else SignUpError.passthrough e422) ∧
    isEmailExistsError e422 = true :=
  ⟨(C6_classification ⟨none, ProviderOutcome.err e422⟩ "a@b.c" e422).1,
   (C6_classification ⟨none, ProviderOutcome.err e422⟩ "a@b.c" e422).2.1
     rfl rfl,
   (C6_classification ⟨none, ProviderOutcome.err e422⟩ "a@b.c" e422).2.2
     rfl⟩

end CoreRag
